import Mathlib

/-!
Shallow embedding of the NoteMeetSpawner recording agent
(`src/abstract/BaseMeetingRecorder.ts`, `src/providers/GoogleMeetRecorder.ts`,
`src/interfaces/IMeetingConfig.ts`) and proofs about its session lifecycle,
persistence and capture-recovery behaviour.

Conventions: promises that can reject are modelled as `Except String`;
the side effects a method performs are modelled as an explicit, ordered
trace of `Action`s; stage outcomes that depend on the outside world
(browser, filesystem, S3) are inputs of the model.
-/

namespace NoteMeet

/-- Storage mode, the `storageType` field of `IMeetingConfig`
(`'local' | 's3' | 'both'`). `local` is a Lean keyword, hence `localStore`. -/
inductive StorageType where
  | localStore
  | s3
  | both
deriving DecidableEq, Repr

/-- Remote-storage configuration, the `s3Config` field of `IMeetingConfig`. -/
structure S3Config where
  bucket : String
  region : String
  accessKeyId : String
  secretAccessKey : String
deriving DecidableEq, Repr

/-- Session configuration (`src/interfaces/IMeetingConfig.ts`). -/
structure IMeetingConfig where
  meetingUrl : String
  botName : Option String := none
  outputDirectory : String
  durationMinutes : Nat
  storageType : StorageType
  s3Config : Option S3Config := none
deriving DecidableEq, Repr

/-- Boolean success test on a promise outcome. -/
def exceptOk {ε α : Type} : Except ε α → Bool
  | Except.ok _ => true
  | Except.error _ => false

instance {ε α : Type} [DecidableEq ε] [DecidableEq α] : DecidableEq (Except ε α) := fun x y =>
  match x, y with
  | Except.ok a, Except.ok b =>
      if h : a = b then isTrue (by rw [h]) else isFalse (by intro hh; cases hh; exact h rfl)
  | Except.ok _, Except.error _ => isFalse (by intro hh; cases hh)
  | Except.error _, Except.ok _ => isFalse (by intro hh; cases hh)
  | Except.error e, Except.error f =>
      if h : e = f then isTrue (by rw [h]) else isFalse (by intro hh; cases hh; exact h rfl)

/-- Recorder state right after construction: the WebDriver handle
(`this.driver`) starts `null` and is only assigned inside
`initializeDriver`, which the constructor never calls; `s3Client` is set by
`initializeS3Client` for the `s3` and `both` modes. -/
structure RecorderState where
  config : IMeetingConfig
  driver : Option Unit := none
  s3Client : Option S3Config := none
deriving DecidableEq, Repr

/-- `BaseMeetingRecorder.validateConfig`: throws when storage mode is `s3`
or `both` and `s3Config` is absent. -/
def validateConfig (config : IMeetingConfig) : Except String Unit :=
  if (config.storageType = StorageType.s3 ∨ config.storageType = StorageType.both)
      ∧ config.s3Config = none then
    Except.error "S3 configuration is required when using S3 storage"
  else
    Except.ok ()

/-- `BaseMeetingRecorder.initializeS3Client`: constructs an S3 client only
for the `s3` and `both` modes (modelled by retaining the config it is
built from). -/
def initializeS3Client (config : IMeetingConfig) : Option S3Config :=
  if config.storageType = StorageType.s3 ∨ config.storageType = StorageType.both then
    config.s3Config
  else
    none

/-- `BaseMeetingRecorder` constructor: validate the config (throwing on
failure), store it, set up the logger, initialize the S3 client. No
browser action occurs here; `driver` remains `null`. -/
def mkBaseMeetingRecorder (config : IMeetingConfig) : Except String RecorderState :=
  match validateConfig config with
  | Except.error e => Except.error e
  | Except.ok _ =>
      Except.ok { config := config, driver := none, s3Client := initializeS3Client config }

/-- Observable steps performed by a session, in execution order. -/
inductive Action where
  | initializeDriver
  | joinMeeting
  | setupRecording
  | injectCaptureScript
  | sleepMs (ms : Nat)
  | stopRecording
  | getVideo
  | saveLocal
  | saveS3
  | clearVideoVar
  | logRecordingSaved
  | screenshotDiag
  | cleanup
  | driverQuit
deriving DecidableEq, Repr

/-- Outcomes of the externally-visible stage operations a session awaits;
each field is the settled outcome of the corresponding promise. -/
structure SessionEnv where
  initializeDriver : Except String Unit
  joinMeeting : Except String Unit
  setupRecording : Except String Unit
  stopRecording : Except String Unit
  getRecordedVideo : Except String (Option String)
  saveToLocal : Except String Unit
  saveToS3 : Except String Unit
  clearVideoVar : Except String Unit
  driverQuit : Except String Unit
deriving DecidableEq, Repr

/-- Sequence two traced computations the way `await` sequences statements:
if the first rejects, the second never runs. -/
def seqStage (first : List Action × Except String Unit)
    (rest : Unit → List Action × Except String Unit) : List Action × Except String Unit :=
  match first with
  | (tr, Except.error e) => (tr, Except.error e)
  | (tr, Except.ok _) =>
      match rest () with
      | (tr2, r) => (tr ++ tr2, r)

/-- A single awaited stage: one action, one outcome. -/
def doStage (a : Action) (r : Except String Unit) : List Action × Except String Unit :=
  ([a], r)

/-- `Promise.all` over two already-settled outcomes: fulfilled iff both
fulfil; otherwise it rejects with a single rejection reason (the first in
time; modelled as the left reason when the left rejects, else the right).
Both operands have already been started, so both destinations run
regardless of each other. -/
def promiseAll2 (a b : Except String Unit) : Except String Unit :=
  match a, b with
  | Except.ok _, Except.ok _ => Except.ok ()
  | Except.error e, _ => Except.error e
  | _, Except.error e => Except.error e

/-- The `switch (this.config.storageType)` dispatch of
`BaseMeetingRecorder.saveRecording`: `local` and `s3` each await their one
destination; `both` (which is also the switch's `default`) starts both
destinations and awaits them jointly via `Promise.all`. -/
def storageDispatch (config : IMeetingConfig) (env : SessionEnv) :
    List Action × Except String Unit :=
  match config.storageType with
  | StorageType.localStore => ([Action.saveLocal], env.saveToLocal)
  | StorageType.s3 => ([Action.saveS3], env.saveToS3)
  | StorageType.both =>
      ([Action.saveLocal, Action.saveS3], promiseAll2 env.saveToLocal env.saveToS3)

/-- Body of `BaseMeetingRecorder.saveRecording`'s `try` block: fetch the
base64 video (returning early with a warning when absent), dispatch on the
storage mode, then clear `window.recordedVideoBase64`. -/
def saveRecordingInner (config : IMeetingConfig) (env : SessionEnv) :
    List Action × Except String Unit :=
  match env.getRecordedVideo with
  | Except.error e => ([Action.getVideo], Except.error e)
  | Except.ok none => ([Action.getVideo], Except.ok ())
  | Except.ok (some _) =>
      match storageDispatch config env with
      | (str, Except.error e) => (Action.getVideo :: str, Except.error e)
      | (str, Except.ok _) =>
          match env.clearVideoVar with
          | Except.error e =>
              (Action.getVideo :: str ++ [Action.clearVideoVar], Except.error e)
          | Except.ok _ =>
              (Action.getVideo :: str ++ [Action.clearVideoVar], Except.ok ())

/-- `BaseMeetingRecorder.saveRecording`: the whole body sits inside a
`try`/`catch` whose handler only logs, so the method always returns
normally; the second component is the error message logged, if any. -/
def saveRecording (config : IMeetingConfig) (env : SessionEnv) :
    List Action × Option String :=
  match saveRecordingInner config env with
  | (tr, Except.ok _) => (tr, none)
  | (tr, Except.error e) => (tr, some ("Video save failed: " ++ e))

/-- `BaseMeetingRecorder.recordMeeting`, parameterised by the trace of the
`setupRecording` stage (abstract in the base class, overridden by
providers). The `try` block runs the stages in order with the
capture-duration sleep of `durationMinutes * 60 * 1000` ms between
`setupRecording` and `stopRecording`; the `catch` block is a best-effort
screenshot wrapped in its own inner `try`/`catch` and so never rethrows;
the `finally` block runs `cleanup`, which calls `driver?.quit()` only when
a driver was acquired (i.e. `initializeDriver` succeeded) and whose
rejection, if any, propagates out of `recordMeeting`. -/
def recordMeetingTryPart (config : IMeetingConfig) (env : SessionEnv)
    (setupStage : List Action × Except String Unit) : List Action × Except String Unit :=
  seqStage (doStage Action.initializeDriver env.initializeDriver) fun _ =>
  seqStage (doStage Action.joinMeeting env.joinMeeting) fun _ =>
  seqStage setupStage fun _ =>
  seqStage (doStage (Action.sleepMs (config.durationMinutes * 60 * 1000)) (Except.ok ())) fun _ =>
  seqStage (doStage Action.stopRecording env.stopRecording) fun _ =>
    ((saveRecording config env).1 ++ [Action.logRecordingSaved], Except.ok ())

/-- The `try`/`catch`/`finally` shell of `BaseMeetingRecorder.recordMeeting`
around `recordMeetingTryPart` (see that definition's comment). -/
def recordMeetingWith (config : IMeetingConfig) (env : SessionEnv)
    (setupStage : List Action × Except String Unit) : List Action × Except String Unit :=
  let tryPart : List Action × Except String Unit :=
    recordMeetingTryPart config env setupStage
  let catchPart : List Action :=
    match tryPart.2 with
    | Except.ok _ => []
    | Except.error _ => [Action.screenshotDiag]
  let driverPresent : Bool := exceptOk env.initializeDriver
  let cleanPart : List Action :=
    Action.cleanup :: (if driverPresent then [Action.driverQuit] else [])
  let cleanResult : Except String Unit :=
    if driverPresent then env.driverQuit else Except.ok ()
  (tryPart.1 ++ catchPart ++ cleanPart,
   match cleanResult with
   | Except.error e => Except.error e
   | Except.ok _ => Except.ok ())

/-- `recordMeeting` as the base class runs it, with the abstract
`setupRecording` stage as a single awaited step. -/
def recordMeetingRun (config : IMeetingConfig) (env : SessionEnv) :
    List Action × Except String Unit :=
  recordMeetingWith config env (doStage Action.setupRecording env.setupRecording)

/-- `GoogleMeetRecorder.setupRecording`, success path of its tail: after
the best-effort mute clicks it injects the capture script
(`executeScript(getScreenRecordingScript())`) and then itself sleeps for
`durationMinutes * 60 * 1000` ms before returning to `recordMeeting`. -/
def googleMeetSetupRecording (config : IMeetingConfig) (inj : Except String Unit) :
    List Action × Except String Unit :=
  match inj with
  | Except.error e => ([Action.injectCaptureScript], Except.error e)
  | Except.ok _ =>
      ([Action.injectCaptureScript,
        Action.sleepMs (config.durationMinutes * 60 * 1000)], Except.ok ())

/-- A full `GoogleMeetRecorder` session: `recordMeeting` with the
`setupRecording` stage expanded to the Google Meet implementation. -/
def googleMeetRecordMeeting (config : IMeetingConfig) (env : SessionEnv)
    (inj : Except String Unit) : List Action × Except String Unit :=
  recordMeetingWith config env (googleMeetSetupRecording config inj)

/-- Total milliseconds slept across a trace. -/
def sleepTotal : List Action → Nat
  | [] => 0
  | Action.sleepMs n :: rest => n + sleepTotal rest
  | _ :: rest => sleepTotal rest

/-- The segment of a trace strictly between the capture-script injection
and the invocation of the stop entry point. -/
def captureWindow (l : List Action) : List Action :=
  ((l.dropWhile (fun a => a ≠ Action.injectCaptureScript)).drop 1).takeWhile
    (fun a => a ≠ Action.stopRecording)

/-- Byte sequence of a `Blob` built from a list of parts: the parts'
bytes, concatenated in the order given. -/
def blobBytes : List (List Nat) → List Nat
  | [] => []
  | p :: ps => p ++ blobBytes ps

/-- Artifact assembly in `window.stopScreenRecording`'s `recorder.onstop`
handler (`GoogleMeetRecorder.getScreenRecordingScript`): reject when the
chunk list is empty, otherwise take `firstChunk = chunks[0]` and
`restChunks = chunks.slice(1)` and build
`new Blob([firstChunk, ...restChunks])`. Chunks are byte lists. -/
def stopAssembleBlob (recordingChunks : List (List Nat)) : Except String (List Nat) :=
  if recordingChunks.length = 0 then
    Except.error "No recording chunks available"
  else
    let firstChunk := recordingChunks.headI
    let restChunks := recordingChunks.drop 1
    Except.ok (blobBytes (firstChunk :: restChunks))

/-- Result of the STOPPING poll loop in `GoogleMeetRecorder.stopRecording`:
final value of `attempts`, total milliseconds spent in the 3-second
sleeps, and the final `videoAvailable` flag. -/
structure PollResult where
  attempts : Nat
  sleptMs : Nat
  videoAvailable : Bool
deriving DecidableEq, Repr

/-- The `while (!videoAvailable && attempts < maxAttempts)` loop of
`GoogleMeetRecorder.stopRecording`: `avail k` is whether the in-page video
data is observed available on attempt `k` (an `executeScript` error on an
attempt is caught and counts as not available); `remaining` is
`maxAttempts - attempts`. Each iteration increments `attempts`, checks
availability (breaking without a sleep on success), and sleeps
`intervalMs` only when `attempts < maxAttempts` still holds. -/
def pollLoopGo (avail : Nat → Bool) (intervalMs : Nat) :
    Nat → Nat → PollResult
  | attempts, 0 => ⟨attempts, 0, false⟩
  | attempts, remaining + 1 =>
      let a := attempts + 1
      if avail a then
        ⟨a, 0, true⟩
      else if remaining = 0 then
        ⟨a, 0, false⟩
      else
        let r := pollLoopGo avail intervalMs a remaining
        ⟨r.attempts, intervalMs + r.sleptMs, r.videoAvailable⟩

/-- The poll phase of `GoogleMeetRecorder.stopRecording` with its source
constants `maxAttempts = 15` and a 3000 ms sleep, followed by the
`if (!videoAvailable) throw new Error(...)` check (the thrown error is
rethrown by the method's outer `catch`, so it is fatal to the session). -/
def stopRecordingPollPhase (avail : Nat → Bool) : PollResult × Except String Unit :=
  let r := pollLoopGo avail 3000 0 15
  (r, if r.videoAvailable then Except.ok ()
      else Except.error "Timed out waiting for video data after multiple attempts")

/-- State of the in-page stop entry point when
`GoogleMeetRecorder.stopRecording` probes it: `window.stopScreenRecording`
is either not a function, or is one and its promise settles with the given
outcome. -/
inductive StopEntryState where
  | missing
  | present (callResult : Except String Unit)
deriving DecidableEq, Repr

/-- Shape of the value the stop-call script returns to the controller. -/
structure StopResult where
  success : Bool
  message : String
deriving DecidableEq, Repr

/-- The stop-call script inside `stopRecording`: calls
`window.stopScreenRecording()` when it exists, mapping fulfilment and
rejection to a `StopResult`; reports "Stop function not found" when it
does not. -/
def stopCallResult : StopEntryState → StopResult
  | StopEntryState.missing => ⟨false, "Stop function not found"⟩
  | StopEntryState.present (Except.ok _) => ⟨true, "Recording stopped successfully"⟩
  | StopEntryState.present (Except.error e) => ⟨false, "Error during stop: " ++ e⟩

/-- Environment for the front (pre-poll) phase of `stopRecording`. -/
structure StopEnv where
  entry : StopEntryState
  hasRecordingChunks : Bool
  chunkCount : Nat
deriving DecidableEq, Repr

/-- Steps of `stopRecording` before the poll loop. -/
inductive StopAction where
  | queryState
  | callStopEntry
  | debugQuery
  | emergencyRecovery
deriving DecidableEq, Repr

/-- Front phase of `GoogleMeetRecorder.stopRecording`: query the recording
state, invoke the stop-call script; only when that reports
`success = false` with message "Stop function not found" does it gather
debug info, and only when the debug info shows recording chunks with a
positive count does it run the in-page emergency recovery script. -/
def stopFrontTrace (env : StopEnv) : List StopAction :=
  let sr := stopCallResult env.entry
  [StopAction.queryState, StopAction.callStopEntry] ++
    (if sr.success = false ∧ sr.message = "Stop function not found" then
      StopAction.debugQuery ::
        (if env.hasRecordingChunks ∧ env.chunkCount > 0 then
          [StopAction.emergencyRecovery]
        else [])
    else [])

/-- Filesystem and logging steps of local persistence. -/
inductive FsAction where
  | checkDirExists (p : String)
  | mkdirRecursive (p : String)
  | decodeBase64
  | writeFile (p : String)
  | statFile (p : String)
  | readBack (p : String) (n : Nat)
  | logWarn (s : String)
  | logError (s : String)
deriving DecidableEq, Repr

/-- `BaseMeetingRecorder.saveToLocalStorage`
(`src/abstract/BaseMeetingRecorder.ts`): check for
`<outputDirectory>/recordings` and create it recursively when missing,
decode the base64 data to a binary buffer (`Buffer.from(..., "base64")`),
write it to `<outputDirectory>/recordings/<filename>` in one operation,
and stat the file to log its size. These are all of its filesystem
actions; in particular no re-read of the written file occurs. -/
def saveToLocalStorage (outputDirectory : String) (dirExists : Bool)
    (filename : String) : List FsAction :=
  let dir := outputDirectory ++ "/recordings"
  let localPath := dir ++ "/" ++ filename
  FsAction.checkDirExists dir ::
    (if dirExists then [] else [FsAction.mkdirRecursive dir]) ++
    [FsAction.decodeBase64, FsAction.writeFile localPath, FsAction.statFile localPath]

/-- True exactly for the read-back action. -/
def isReadBack : FsAction → Bool
  | FsAction.readBack _ _ => true
  | _ => false

/-- `BaseMeetingRecorder.verifyWebMFile` applied to the first bytes it
reads back: the file is valid WebM when bytes 0..3 are the EBML signature
`1A 45 DF A3`. On mismatch the method logs with `logger.error` (not a
warning) and returns `false`; it is defined in the class but never invoked
from `saveToLocalStorage`, `saveRecording` or any other method. -/
def verifyWebMFile (headerBytes : List Nat) : Bool :=
  match headerBytes with
  | b0 :: b1 :: b2 :: b3 :: _ =>
      decide (b0 = 0x1a ∧ b1 = 0x45 ∧ b2 = 0xdf ∧ b3 = 0xa3)
  | _ => false

/-- A configuration with local storage and a one-minute duration, the
spec's "8. TESTABLE PROPERTIES" scenario shape. -/
def cfgLocal1 : IMeetingConfig :=
  { meetingUrl := "https://meet.google.com/abc-defg-hij"
  , botName := some "Note Meet Bot"
  , outputDirectory := "/out/group1"
  , durationMinutes := 1
  , storageType := StorageType.localStore
  , s3Config := none }

/-- A session environment in which every external stage succeeds and a
video artifact is present. -/
def envAllOk : SessionEnv :=
  { initializeDriver := Except.ok ()
  , joinMeeting := Except.ok ()
  , setupRecording := Except.ok ()
  , stopRecording := Except.ok ()
  , getRecordedVideo := Except.ok (some "GkXfowEAAAA")
  , saveToLocal := Except.ok ()
  , saveToS3 := Except.ok ()
  , clearVideoVar := Except.ok ()
  , driverQuit := Except.ok () }

/-- Configuration selecting S3 storage but omitting `s3Config`. -/
def cfgS3Missing : IMeetingConfig :=
  { cfgLocal1 with storageType := StorageType.s3, s3Config := none }

/-- Configuration for the `both` storage mode with credentials present. -/
def cfgBoth : IMeetingConfig :=
  { cfgLocal1 with
      storageType := StorageType.both
    , s3Config := some
        { bucket := "notemeet", region := "us-east-1"
        , accessKeyId := "AKIA", secretAccessKey := "secret" } }

/-- Environment whose local persistence rejects while S3 succeeds. -/
def envLocalFail : SessionEnv :=
  { envAllOk with saveToLocal := Except.error "Local save failed: ENOSPC" }

/-- Environment in which both persistence destinations reject. -/
def envBothFail : SessionEnv :=
  { envAllOk with
      saveToLocal := Except.error "Local save failed: ENOSPC"
    , saveToS3 := Except.error "S3 upload failed" }

/-- Environment in which every configured persistence destination fails,
while all pre-persistence stages succeed. -/
def envPersistFail : SessionEnv :=
  { envAllOk with
      saveToLocal := Except.error "Local save failed: EACCES"
    , saveToS3 := Except.error "S3 client not initialized" }

/-- Environment in which every stage succeeds but `driver.quit()` rejects
during cleanup. -/
def envQuitFails : SessionEnv :=
  { envAllOk with driverQuit := Except.error "quit failed: invalid session id" }

/-- Stop-phase environment: the stop entry point is missing from the page
and three raw chunks survive in `window.recordingChunks`. -/
def stopEnvMissing : StopEnv :=
  { entry := StopEntryState.missing, hasRecordingChunks := true, chunkCount := 3 }

lemma pollLoopGo_attempts_le (avail : Nat → Bool) (intervalMs : Nat) :
    ∀ rem att, (pollLoopGo avail intervalMs att rem).attempts ≤ att + rem := by
  intro rem
  induction rem with
  | zero => intro att; simp [pollLoopGo]
  | succ n ih =>
      intro att
      simp only [pollLoopGo]
      split
      · simp
      · split
        · simp
        · have := ih (att + 1)
          simp only []
          omega

lemma pollLoopGo_slept_le (avail : Nat → Bool) (intervalMs : Nat) :
    ∀ rem att, (pollLoopGo avail intervalMs att rem).sleptMs ≤ rem * intervalMs := by
  intro rem
  induction rem with
  | zero => intro att; simp [pollLoopGo]
  | succ n ih =>
      intro att
      simp only [pollLoopGo]
      split
      · simp
      · split
        · simp
        · have := ih (att + 1)
          have hmul : (n + 1) * intervalMs = n * intervalMs + intervalMs :=
            Nat.succ_mul n intervalMs
          simp only []
          omega

lemma pollLoopGo_never_avail (avail : Nat → Bool) (intervalMs : Nat)
    (hav : ∀ k, avail k = false) :
    ∀ rem att, (pollLoopGo avail intervalMs att rem).videoAvailable = false := by
  intro rem
  induction rem with
  | zero => intro att; simp [pollLoopGo]
  | succ n ih =>
      intro att
      simp only [pollLoopGo, hav (att + 1)]
      simp only [Bool.false_eq_true, if_false]
      split
      · rfl
      · exact ih (att + 1)

/-- C3: the STOPPING poll loop of `GoogleMeetRecorder.stopRecording` makes
at most 15 attempts, spends at most `maxAttempts * intervalMs`
(15 × 3000 ms) sleeping — whether or not the video data ever becomes
available — and when the data is never observed available, the phase ends
with the fatal "Timed out waiting for video data" error. -/
theorem c3_poll_bounded (avail : Nat → Bool) :
    (stopRecordingPollPhase avail).1.attempts ≤ 15
    ∧ (stopRecordingPollPhase avail).1.sleptMs ≤ 15 * 3000
    ∧ ((∀ k, avail k = false) →
        (stopRecordingPollPhase avail).2 =
          Except.error "Timed out waiting for video data after multiple attempts") := by
  refine ⟨?_, ?_, ?_⟩
  · have := pollLoopGo_attempts_le avail 3000 15 0
    simpa [stopRecordingPollPhase] using this
  · have := pollLoopGo_slept_le avail 3000 15 0
    simpa [stopRecordingPollPhase] using this
  · intro hav
    have := pollLoopGo_never_avail avail 3000 hav 15 0
    simp [stopRecordingPollPhase, this]

/-- Witness for C3 at the concrete oracle that never reports the data
available: all 15 attempts are exhausted and the phase throws. -/
theorem c3_witness :
    (∀ k : Nat, (fun _ : Nat => false) k = false)
    ∧ (stopRecordingPollPhase (fun _ => false)).2 =
        Except.error "Timed out waiting for video data after multiple attempts" :=
  ⟨fun _ => rfl, (c3_poll_bounded (fun _ => false)).2.2 (fun _ => rfl)⟩

/-- C2: artifact assembly in the stop entry point is order-preserving
flattening of the chunk sequence with the first recorded chunk first, and
it is deterministic — equal chunk sequences always produce byte-identical
output. -/
theorem c2_chunk_concat_order (first : List Nat) (rest : List (List Nat))
    (recordingChunks : List (List Nat)) (h : recordingChunks = first :: rest) :
    stopAssembleBlob recordingChunks = Except.ok (first ++ blobBytes rest)
    ∧ stopAssembleBlob recordingChunks = Except.ok (blobBytes recordingChunks)
    ∧ ∀ chunks2, chunks2 = recordingChunks →
        stopAssembleBlob chunks2 = stopAssembleBlob recordingChunks := by
  subst h
  refine ⟨?_, ?_, ?_⟩
  · simp [stopAssembleBlob, blobBytes]
  · simp [stopAssembleBlob, blobBytes]
  · intro chunks2 h2
    rw [h2]

/-- Witness for C2 on a concrete three-chunk sequence. -/
theorem c2_witness :
    ([[26, 69], [3], [4, 5]] : List (List Nat)) = [26, 69] :: [[3], [4, 5]]
    ∧ stopAssembleBlob [[26, 69], [3], [4, 5]] =
        Except.ok ([26, 69] ++ blobBytes [[3], [4, 5]]) :=
  ⟨rfl, (c2_chunk_concat_order [26, 69] [[3], [4, 5]] [[26, 69], [3], [4, 5]] rfl).1⟩

/-- C5: constructing a recorder whose storage mode is `s3` or `both`
without an `s3Config` fails with the configuration error; construction
never succeeds there, and any successfully constructed recorder still has
no driver — browser acquisition happens only later, inside
`recordMeeting`'s `initializeDriver` stage. -/
theorem c5_missing_s3_config_fatal (config : IMeetingConfig)
    (hmode : config.storageType = StorageType.s3 ∨ config.storageType = StorageType.both)
    (hmiss : config.s3Config = none) :
    mkBaseMeetingRecorder config =
      Except.error "S3 configuration is required when using S3 storage"
    ∧ (∀ st : RecorderState, mkBaseMeetingRecorder config ≠ Except.ok st)
    ∧ (∀ cfg2 st, mkBaseMeetingRecorder cfg2 = Except.ok st → st.driver = none) := by
  have hval : validateConfig config =
      Except.error "S3 configuration is required when using S3 storage" := by
    unfold validateConfig
    rw [if_pos ⟨hmode, hmiss⟩]
  refine ⟨?_, ?_, ?_⟩
  · unfold mkBaseMeetingRecorder
    rw [hval]
  · intro st hok
    unfold mkBaseMeetingRecorder at hok
    rw [hval] at hok
    cases hok
  · intro cfg2 st hok
    unfold mkBaseMeetingRecorder at hok
    rcases hv2 : validateConfig cfg2 with e | u
    · rw [hv2] at hok; cases hok
    · rw [hv2] at hok
      cases hok
      rfl

/-- Witness for C5 at a concrete config with S3 mode and no credentials. -/
theorem c5_witness :
    (cfgS3Missing.storageType = StorageType.s3
      ∨ cfgS3Missing.storageType = StorageType.both)
    ∧ cfgS3Missing.s3Config = none
    ∧ mkBaseMeetingRecorder cfgS3Missing =
        Except.error "S3 configuration is required when using S3 storage" :=
  ⟨Or.inl rfl, rfl, (c5_missing_s3_config_fatal cfgS3Missing (Or.inl rfl) rfl).1⟩

/-- C6 exhibits a code bug: on the fully successful path of a
`GoogleMeetRecorder` session with `durationMinutes = 1`, the controller
sleeps 120000 ms between injecting the capture script and invoking the
stop entry point — `setupRecording` sleeps `1 * 60 * 1000` ms itself and
`recordMeeting` then sleeps `1 * 60 * 1000` ms again — instead of the
single configured capture duration of 60000 ms. -/
theorem c6_double_sleep :
    sleepTotal (captureWindow
        (googleMeetRecordMeeting cfgLocal1 envAllOk (Except.ok ())).1) = 120000
    ∧ cfgLocal1.durationMinutes * 60 * 1000 = 60000
    ∧ (120000 : Nat) ≠ 60000 := by
  refine ⟨by decide, rfl, by decide⟩

/-- C4 counterexample: in storage mode `both`, a run where local
persistence fails and S3 succeeds produces exactly the same overall
outcome of `saveRecording`'s dispatch as a run where both destinations
fail — a single collapsed rejection carrying one error, from which the
per-destination outcomes cannot be recovered; no result enumerating one
success plus one failure exists. -/
theorem c4_counterexample :
    (saveRecordingInner cfgBoth envLocalFail).2 =
      Except.error "Local save failed: ENOSPC"
    ∧ (saveRecordingInner cfgBoth envBothFail).2 =
        Except.error "Local save failed: ENOSPC"
    ∧ (saveRecordingInner cfgBoth envLocalFail).2 =
        (saveRecordingInner cfgBoth envBothFail).2
    ∧ envLocalFail.saveToS3 ≠ envBothFail.saveToS3 :=
  ⟨rfl, rfl, rfl, by decide⟩

/-- C4 amended: in storage mode `both` with video data present, both
destinations are always started (both actions occur regardless of either
outcome, so either may fail independently and neither is rolled back), but
the joint result is `Promise.all`'s single pass/fail: it fulfils iff both
destinations (and the subsequent in-page clear) succeed, and a local
failure rejects the whole save with just that one error. -/
theorem c4_both_promiseAll (config : IMeetingConfig) (env : SessionEnv) (d : String)
    (hmode : config.storageType = StorageType.both)
    (hdata : env.getRecordedVideo = Except.ok (some d)) :
    Action.saveLocal ∈ (saveRecordingInner config env).1
    ∧ Action.saveS3 ∈ (saveRecordingInner config env).1
    ∧ ((saveRecordingInner config env).2 = Except.ok () ↔
        env.saveToLocal = Except.ok () ∧ env.saveToS3 = Except.ok ()
          ∧ env.clearVideoVar = Except.ok ())
    ∧ (∀ e, env.saveToLocal = Except.error e →
        (saveRecordingInner config env).2 = Except.error e) := by
  unfold saveRecordingInner storageDispatch
  rw [hdata, hmode]
  rcases hl : env.saveToLocal with el | ul <;>
    rcases hs : env.saveToS3 with es | us <;>
      rcases hc : env.clearVideoVar with ec | uc <;>
        refine ⟨by simp [promiseAll2], by simp [promiseAll2],
                by simp [promiseAll2], ?_⟩ <;>
        · intro e he
          first
            | (injection he with hee; subst hee; simp [promiseAll2])
            | simp at he

/-- Witness for C4's amended statement: with local persistence failing and
S3 succeeding, the joint save rejects with the single local error. -/
theorem c4_witness :
    cfgBoth.storageType = StorageType.both
    ∧ envLocalFail.getRecordedVideo = Except.ok (some "GkXfowEAAAA")
    ∧ envLocalFail.saveToLocal = Except.error "Local save failed: ENOSPC"
    ∧ (saveRecordingInner cfgBoth envLocalFail).2 =
        Except.error "Local save failed: ENOSPC" :=
  ⟨rfl, rfl, rfl,
    (c4_both_promiseAll cfgBoth envLocalFail "GkXfowEAAAA" rfl rfl).2.2.2
      "Local save failed: ENOSPC" rfl⟩

/-- C8 counterexample: at a concrete local save, the complete action
sequence of `saveToLocalStorage` is directory check, recursive create,
base64 decode, write, stat — it contains no read-back of the written
file's first bytes, so no container-signature verification happens on the
save path. -/
theorem c8_counterexample :
    saveToLocalStorage "/out/group1" false "meet-recording-1.webm" =
      [FsAction.checkDirExists "/out/group1/recordings",
       FsAction.mkdirRecursive "/out/group1/recordings",
       FsAction.decodeBase64,
       FsAction.writeFile "/out/group1/recordings/meet-recording-1.webm",
       FsAction.statFile "/out/group1/recordings/meet-recording-1.webm"]
    ∧ (saveToLocalStorage "/out/group1" false "meet-recording-1.webm").any
        isReadBack = false := by
  constructor
  · rfl
  · rfl

/-- C8 amended: local persistence decodes the base64 artifact, creates the
recordings directory recursively exactly when it is missing, and writes
and stats the file — but performs no read-back, so the WebM/EBML signature
is never checked on the save path; the `verifyWebMFile` helper that would
check the `1A 45 DF A3` signature exists but is unreferenced, accepts
exactly headers starting with that signature, and reports mismatch via an
error log and a `false` return rather than a warning. -/
theorem c8_local_save_no_verify (outputDirectory filename : String) (dirExists : Bool) :
    ((saveToLocalStorage outputDirectory dirExists filename).any isReadBack = false)
    ∧ (FsAction.mkdirRecursive (outputDirectory ++ "/recordings") ∈
        saveToLocalStorage outputDirectory dirExists filename ↔ dirExists = false)
    ∧ FsAction.writeFile (outputDirectory ++ "/recordings" ++ "/" ++ filename) ∈
        saveToLocalStorage outputDirectory dirExists filename
    ∧ (∀ rest : List Nat, verifyWebMFile (0x1a :: 0x45 :: 0xdf :: 0xa3 :: rest) = true)
    ∧ (∀ b1 b2 b3 rest2, verifyWebMFile (0 :: b1 :: b2 :: b3 :: rest2) = false) := by
  refine ⟨?_, ?_, ?_, ?_, ?_⟩
  · cases dirExists <;> simp [saveToLocalStorage, isReadBack]
  · cases dirExists <;> simp [saveToLocalStorage]
  · cases dirExists <;> simp [saveToLocalStorage]
  · intro rest; simp [verifyWebMFile]
  · intro b1 b2 b3 rest2; simp [verifyWebMFile]

lemma errorDuringStop_ne (e : String) :
    ("Error during stop: " ++ e) ≠ "Stop function not found" := by
  intro h
  have h2 : ("Error during stop: " ++ e).data = "Stop function not found".data := by
    rw [h]
  rw [String.data_append] at h2
  have h3 : ("Error during stop: ".data ++ e.data).head? = some 'E' := rfl
  rw [h2] at h3
  simp at h3

/-- C9: the in-page emergency recovery runs only when the primary stop
entry point was already invoked and found missing ("Stop function not
found" — which in particular means it was unavailable) and raw recording
chunks exist; whenever it runs, the call to the primary stop path occurs
strictly earlier in the same stop sequence, so recovery is never attempted
before or instead of the primary path. -/
theorem c9_emergency_only_after_primary (env : StopEnv)
    (h : StopAction.emergencyRecovery ∈ stopFrontTrace env) :
    (env.entry = StopEntryState.missing
      ∨ ∃ e, env.entry = StopEntryState.present (Except.error e))
    ∧ env.hasRecordingChunks = true
    ∧ env.chunkCount > 0
    ∧ ∃ pre post, stopFrontTrace env = pre ++ StopAction.emergencyRecovery :: post
        ∧ StopAction.callStopEntry ∈ pre := by
  rcases env with ⟨entry, hasChunks, cnt⟩
  cases entry with
  | missing =>
      cases hasChunks with
      | false => simp [stopFrontTrace, stopCallResult] at h
      | true =>
          cases cnt with
          | zero => simp [stopFrontTrace, stopCallResult] at h
          | succ n =>
              refine ⟨Or.inl rfl, rfl, Nat.succ_pos n,
                [StopAction.queryState, StopAction.callStopEntry, StopAction.debugQuery],
                [], ?_, ?_⟩
              · simp [stopFrontTrace, stopCallResult]
              · simp
  | present res =>
      cases res with
      | ok u => simp [stopFrontTrace, stopCallResult] at h
      | error e =>
          exfalso
          simp [stopFrontTrace, stopCallResult, errorDuringStop_ne e] at h

/-- Witness for C9: with the stop entry point missing and three chunks
present, emergency recovery is in the stop sequence and the theorem's
conclusions hold. -/
theorem c9_witness :
    StopAction.emergencyRecovery ∈ stopFrontTrace stopEnvMissing
    ∧ (stopEnvMissing.entry = StopEntryState.missing
        ∨ ∃ e, stopEnvMissing.entry = StopEntryState.present (Except.error e))
    ∧ stopEnvMissing.hasRecordingChunks = true
    ∧ stopEnvMissing.chunkCount > 0 :=
  ⟨by decide,
    (c9_emergency_only_after_primary stopEnvMissing (by decide)).1,
    (c9_emergency_only_after_primary stopEnvMissing (by decide)).2.1,
    (c9_emergency_only_after_primary stopEnvMissing (by decide)).2.2.1⟩

lemma mem_seqStage (first : List Action × Except String Unit)
    (rest : Unit → List Action × Except String Unit) (a : Action)
    (h : a ∈ (seqStage first rest).1) : a ∈ first.1 ∨ a ∈ (rest ()).1 := by
  rcases first with ⟨tr, r⟩
  cases r with
  | error e => exact Or.inl h
  | ok u =>
      rcases hr : rest () with ⟨tr2, r2⟩
      simp only [seqStage, hr, List.mem_append] at h
      rcases h with h | h
      · exact Or.inl h
      · exact Or.inr h

lemma mem_storageDispatch (config : IMeetingConfig) (env : SessionEnv) (a : Action)
    (h : a ∈ (storageDispatch config env).1) :
    a = Action.saveLocal ∨ a = Action.saveS3 := by
  unfold storageDispatch at h
  rcases hst : config.storageType with _ | _ | _ <;> rw [hst] at h <;> simp at h <;> tauto

lemma mem_saveRecordingInner (config : IMeetingConfig) (env : SessionEnv) (a : Action)
    (h : a ∈ (saveRecordingInner config env).1) :
    a = Action.getVideo ∨ a = Action.saveLocal ∨ a = Action.saveS3
      ∨ a = Action.clearVideoVar := by
  unfold saveRecordingInner at h
  rcases hv : env.getRecordedVideo with e | ov
  · rw [hv] at h
    simp at h
    tauto
  · rcases ov with _ | d
    · rw [hv] at h
      simp at h
      tauto
    · rw [hv] at h
      rcases hsd : storageDispatch config env with ⟨str, r⟩
      rw [hsd] at h
      have hstr : ∀ b, b ∈ str → b = Action.saveLocal ∨ b = Action.saveS3 := by
        intro b hb
        refine mem_storageDispatch config env b ?_
        rw [hsd]
        exact hb
      cases r with
      | error e =>
          simp at h
          rcases h with h | h
          · tauto
          · rcases hstr a h with h | h <;> tauto
      | ok u =>
          rcases hc : env.clearVideoVar with ec | uc <;> rw [hc] at h <;>
            · simp at h
              rcases h with h | h | h
              · tauto
              · rcases hstr a h with h | h <;> tauto
              · tauto

lemma saveRecording_fst (config : IMeetingConfig) (env : SessionEnv) :
    (saveRecording config env).1 = (saveRecordingInner config env).1 := by
  unfold saveRecording
  rcases h : saveRecordingInner config env with ⟨tr, r⟩
  cases r <;> simp

lemma mem_saveRecording (config : IMeetingConfig) (env : SessionEnv) (a : Action)
    (h : a ∈ (saveRecording config env).1) :
    a = Action.getVideo ∨ a = Action.saveLocal ∨ a = Action.saveS3
      ∨ a = Action.clearVideoVar := by
  rw [saveRecording_fst] at h
  exact mem_saveRecordingInner config env a h

lemma mem_tryPart (config : IMeetingConfig) (env : SessionEnv)
    (setupStage : List Action × Except String Unit) (a : Action)
    (h : a ∈ (recordMeetingTryPart config env setupStage).1) :
    a = Action.initializeDriver ∨ a = Action.joinMeeting ∨ a ∈ setupStage.1
      ∨ a = Action.sleepMs (config.durationMinutes * 60 * 1000)
      ∨ a = Action.stopRecording
      ∨ a ∈ (saveRecording config env).1 ∨ a = Action.logRecordingSaved := by
  unfold recordMeetingTryPart at h
  rcases mem_seqStage _ _ _ h with h1 | h
  · left; simpa [doStage] using h1
  rcases mem_seqStage _ _ _ h with h1 | h
  · right; left; simpa [doStage] using h1
  rcases mem_seqStage _ _ _ h with h1 | h
  · right; right; left; exact h1
  rcases mem_seqStage _ _ _ h with h1 | h
  · right; right; right; left; simpa [doStage] using h1
  rcases mem_seqStage _ _ _ h with h1 | h
  · right; right; right; right; left; simpa [doStage] using h1
  simp only [List.mem_append, List.mem_singleton] at h
  rcases h with h | h
  · right; right; right; right; right; left; exact h
  · right; right; right; right; right; right; exact h

lemma tryPart_subset (config : IMeetingConfig) (env : SessionEnv) (a : Action)
    (h : a ∈ (recordMeetingTryPart config env
        (doStage Action.setupRecording env.setupRecording)).1) :
    a = Action.initializeDriver ∨ a = Action.joinMeeting ∨ a = Action.setupRecording
      ∨ a = Action.sleepMs (config.durationMinutes * 60 * 1000)
      ∨ a = Action.stopRecording ∨ a = Action.getVideo ∨ a = Action.saveLocal
      ∨ a = Action.saveS3 ∨ a = Action.clearVideoVar
      ∨ a = Action.logRecordingSaved := by
  rcases mem_tryPart config env _ a h with h | h | h | h | h | h | h
  · tauto
  · tauto
  · simp only [doStage, List.mem_singleton] at h; tauto
  · tauto
  · tauto
  · rcases mem_saveRecording config env a h with h | h | h | h <;> tauto
  · tauto

lemma cleanup_not_in_tryPart (config : IMeetingConfig) (env : SessionEnv) :
    Action.cleanup ∉ (recordMeetingTryPart config env
        (doStage Action.setupRecording env.setupRecording)).1 := by
  intro hmem
  rcases tryPart_subset config env Action.cleanup hmem with
    h | h | h | h | h | h | h | h | h | h <;> exact Action.noConfusion h

lemma driverQuit_not_in_tryPart (config : IMeetingConfig) (env : SessionEnv) :
    Action.driverQuit ∉ (recordMeetingTryPart config env
        (doStage Action.setupRecording env.setupRecording)).1 := by
  intro hmem
  rcases tryPart_subset config env Action.driverQuit hmem with
    h | h | h | h | h | h | h | h | h | h <;> exact Action.noConfusion h

lemma screenshotDiag_not_in_tryPart (config : IMeetingConfig) (env : SessionEnv) :
    Action.screenshotDiag ∉ (recordMeetingTryPart config env
        (doStage Action.setupRecording env.setupRecording)).1 := by
  intro hmem
  rcases tryPart_subset config env Action.screenshotDiag hmem with
    h | h | h | h | h | h | h | h | h | h <;> exact Action.noConfusion h

/-- C1: in every execution of `recordMeeting` — whichever stage completes
or throws, including a failing `initializeDriver` and any mid-stage
rejection — the `finally` cleanup step runs exactly once; the driver's
`quit` is invoked exactly once whenever a driver was acquired, and zero
times when driver initialization itself failed (there is then no driver to
release, `driver?.quit()` short-circuits). -/
theorem c1_cleanup_exactly_once (config : IMeetingConfig) (env : SessionEnv) :
    List.count Action.cleanup (recordMeetingRun config env).1 = 1
    ∧ (env.initializeDriver = Except.ok () →
        List.count Action.driverQuit (recordMeetingRun config env).1 = 1)
    ∧ (∀ e, env.initializeDriver = Except.error e →
        List.count Action.driverQuit (recordMeetingRun config env).1 = 0) := by
  have hcl := cleanup_not_in_tryPart config env
  have hdq := driverQuit_not_in_tryPart config env
  refine ⟨?_, ?_, ?_⟩
  · simp only [recordMeetingRun, recordMeetingWith, List.count_append]
    rw [List.count_eq_zero.mpr hcl]
    rcases hres : (recordMeetingTryPart config env
        (doStage Action.setupRecording env.setupRecording)).2 with e | u <;>
      cases hdp : exceptOk env.initializeDriver <;> simp
  · intro h
    have hdp : exceptOk env.initializeDriver = true := by rw [h]; rfl
    simp only [recordMeetingRun, recordMeetingWith, List.count_append]
    rw [List.count_eq_zero.mpr hdq]
    rcases hres : (recordMeetingTryPart config env
        (doStage Action.setupRecording env.setupRecording)).2 with e | u <;>
      simp [hdp]
  · intro e h
    have hdp : exceptOk env.initializeDriver = false := by rw [h]; rfl
    simp only [recordMeetingRun, recordMeetingWith, List.count_append]
    rw [List.count_eq_zero.mpr hdq]
    rcases hres : (recordMeetingTryPart config env
        (doStage Action.setupRecording env.setupRecording)).2 with e2 | u <;>
      simp [hdp]

/-- Witness for C1 on the all-successful environment: cleanup once, quit
once. -/
theorem c1_witness :
    envAllOk.initializeDriver = Except.ok ()
    ∧ List.count Action.cleanup (recordMeetingRun cfgLocal1 envAllOk).1 = 1
    ∧ List.count Action.driverQuit (recordMeetingRun cfgLocal1 envAllOk).1 = 1 :=
  ⟨rfl, (c1_cleanup_exactly_once cfgLocal1 envAllOk).1,
    (c1_cleanup_exactly_once cfgLocal1 envAllOk).2.1 rfl⟩

/-- C7 counterexample: with every driven stage succeeding but
`driver.quit()` rejecting during cleanup, `recordMeeting` propagates that
rejection past its boundary instead of returning normally. -/
theorem c7_counterexample :
    (recordMeetingRun cfgLocal1 envQuitFails).2 =
      Except.error "quit failed: invalid session id" := rfl

lemma recordMeetingRun_result_ok (config : IMeetingConfig) (env : SessionEnv)
    (hquit : env.driverQuit = Except.ok ()) :
    (recordMeetingRun config env).2 = Except.ok () := by
  simp only [recordMeetingRun, recordMeetingWith, hquit]
  cases hdp : exceptOk env.initializeDriver <;> simp [hdp]

/-- C7 amended: every failure raised by the stages `recordMeeting` drives
in its `try` block is caught internally and converted into the best-effort
diagnostic path, and `recordMeeting` returns normally — provided the
`finally` block's own `driver.quit()` does not reject; a rejection there
is the single escape past the boundary. -/
theorem c7_no_throw_unless_cleanup_fails (config : IMeetingConfig) (env : SessionEnv)
    (hquit : env.driverQuit = Except.ok ()) :
    (recordMeetingRun config env).2 = Except.ok () :=
  recordMeetingRun_result_ok config env hquit

/-- Witness for C7's amended statement at a concrete failing stage: the
join stage rejects, yet the call returns normally. -/
theorem c7_witness :
    ({ envAllOk with joinMeeting := Except.error "join button not found"
      } : SessionEnv).driverQuit = Except.ok ()
    ∧ (recordMeetingRun cfgLocal1
        { envAllOk with joinMeeting := Except.error "join button not found" }).2 =
        Except.ok () :=
  ⟨rfl, c7_no_throw_unless_cleanup_fails cfgLocal1
    { envAllOk with joinMeeting := Except.error "join button not found" } rfl⟩

lemma tryPart_ok (config : IMeetingConfig) (env : SessionEnv)
    (h1 : env.initializeDriver = Except.ok ()) (h2 : env.joinMeeting = Except.ok ())
    (h3 : env.setupRecording = Except.ok ()) (h4 : env.stopRecording = Except.ok ()) :
    (recordMeetingTryPart config env
        (doStage Action.setupRecording env.setupRecording)).2 = Except.ok ()
    ∧ Action.logRecordingSaved ∈ (recordMeetingTryPart config env
        (doStage Action.setupRecording env.setupRecording)).1 := by
  constructor <;> simp [recordMeetingTryPart, seqStage, doStage, h1, h2, h3, h4]

/-- C10: all persistence failures are absorbed inside `saveRecording`, so
whenever every stage before persistence succeeds, the session never enters
the error/diagnostic-screenshot branch and still reaches the
"Recording saved to storage" log — for every outcome of video retrieval,
local write, S3 upload and the in-page clear, including all of them
failing; and the call returns normally when cleanup succeeds. -/
theorem c10_persistence_errors_contained (config : IMeetingConfig) (env : SessionEnv)
    (h1 : env.initializeDriver = Except.ok ()) (h2 : env.joinMeeting = Except.ok ())
    (h3 : env.setupRecording = Except.ok ()) (h4 : env.stopRecording = Except.ok ()) :
    Action.screenshotDiag ∉ (recordMeetingRun config env).1
    ∧ Action.logRecordingSaved ∈ (recordMeetingRun config env).1
    ∧ (env.driverQuit = Except.ok () →
        (recordMeetingRun config env).2 = Except.ok ()) := by
  have hok := (tryPart_ok config env h1 h2 h3 h4).1
  have hlog := (tryPart_ok config env h1 h2 h3 h4).2
  have hscr := screenshotDiag_not_in_tryPart config env
  refine ⟨?_, ?_, ?_⟩
  · simp only [recordMeetingRun, recordMeetingWith, hok, List.mem_append]
    intro hmem
    rcases hmem with (hmem | hmem) | hmem
    · exact hscr hmem
    · simp at hmem
    · cases hdp : exceptOk env.initializeDriver <;> rw [hdp] at hmem <;> simp at hmem
  · simp only [recordMeetingRun, recordMeetingWith, hok, List.mem_append]
    exact Or.inl (Or.inl hlog)
  · intro hquit
    exact recordMeetingRun_result_ok config env hquit

/-- Witness for C10: every configured destination fails
(`envPersistFail`), yet no diagnostic branch is entered and the normal
completion log is reached. -/
theorem c10_witness :
    envPersistFail.initializeDriver = Except.ok ()
    ∧ envPersistFail.joinMeeting = Except.ok ()
    ∧ envPersistFail.setupRecording = Except.ok ()
    ∧ envPersistFail.stopRecording = Except.ok ()
    ∧ Action.screenshotDiag ∉ (recordMeetingRun cfgLocal1 envPersistFail).1
    ∧ Action.logRecordingSaved ∈ (recordMeetingRun cfgLocal1 envPersistFail).1 :=
  ⟨rfl, rfl, rfl, rfl,
    (c10_persistence_errors_contained cfgLocal1 envPersistFail rfl rfl rfl rfl).1,
    (c10_persistence_errors_contained cfgLocal1 envPersistFail rfl rfl rfl rfl).2.1⟩

end NoteMeet
